import Mathlib

set_option maxRecDepth 8000

/- Shallow embedding of the HubSpot deals pipeline (cjus/hubspot-pipeline).

   Embedded code:
   - app/ingest/hubspotTransforms.ts : the raw-deal-to-normalized-deal stream
     transform registered via HubSpotDealRawPipeline.stream.addTransform;
   - app/scripts/hubspotSync.ts (re-exported through hubspotWorkflow.ts) :
     the syncHubSpotDeals driver, in particular its property-cleaning step
     and its per-record success and error accounting.

   Modelling conventions:
   - JS numbers are modelled as exact rationals plus NaN and the signed
     infinities (JsNum).  float64 rounding is not modelled; the properties
     proved here depend only on parse success or failure and on small exact
     constants, which float64 represents exactly.
   - JS Date values are modelled as epoch milliseconds or Invalid Date
     (JsDate); the runtime is assumed to run in UTC.
   - a JS property bag is an association list String x Option String: an
     absent key has no entry, a null (or explicitly undefined) value is an
     entry carrying none, a present string value is an entry carrying some.
-/

/-- Model of a JS number: NaN, a signed infinity, or a finite value
(modelled as an exact rational). -/
inductive JsNum where
  | nan : JsNum
  | posInf : JsNum
  | negInf : JsNum
  | num (q : Rat) : JsNum
deriving DecidableEq, Repr

/-- JS truthiness of a number: NaN and 0 are falsy, everything else truthy. -/
def JsNum.truthy : JsNum → Bool
  | .nan => false
  | .num q => q != 0
  | _ => true

/-- JS `x || 0` on a number: NaN and 0 fall through to the literal 0. -/
def jsNumOrZero (x : JsNum) : JsNum := if x.truthy then x else .num 0

/-- Model of a JS Date: a valid instant (epoch milliseconds) or Invalid Date. -/
inductive JsDate where
  | invalid : JsDate
  | valid (ms : Int) : JsDate
deriving DecidableEq, Repr

/-- JS `d1 || d2` where d1 is a Date object: every object (Invalid Date
included) is truthy, so the result is always d1.  Kept to mirror the source
expression `parseDate(...) || new Date(rawDeal.createdAt)`, whose right
operand is consequently dead code. -/
def jsDateOr (d1 _d2 : JsDate) : JsDate := d1

/-- Rational addition, written with mkRat on the normalized num/den
representation so that proofs by decide can evaluate it (the library's own
rational operations are deliberately irreducible). -/
def ratAdd (a b : Rat) : Rat :=
  mkRat (a.num * (b.den : Int) + b.num * (a.den : Int)) (a.den * b.den)

/-- Rational negation via mkRat. -/
def ratNeg (a : Rat) : Rat := mkRat (-a.num) a.den

/-- Rational subtraction via mkRat. -/
def ratSub (a b : Rat) : Rat := ratAdd a (ratNeg b)

/-- Rational multiplication via mkRat. -/
def ratMul (a b : Rat) : Rat := mkRat (a.num * b.num) (a.den * b.den)

/-- Rational division via mkRat; division by zero yields 0, but every call
site below guards the divisor. -/
def ratDiv (a b : Rat) : Rat :=
  if 0 ≤ b.num then mkRat (a.num * (b.den : Int)) (a.den * b.num.toNat)
  else mkRat (-(a.num * (b.den : Int))) (a.den * (-b.num).toNat)

/-- Rational absolute value. -/
def ratAbs (a : Rat) : Rat := if a.num < 0 then ratNeg a else a

/-- The rational 10 ^ n. -/
def ratTenPow (n : Nat) : Rat := mkRat (((10 : Nat) ^ n : Nat) : Int) 1

/-- The rational with integer value n. -/
def ratOfInt (n : Int) : Rat := mkRat n 1

/-- JS Date.prototype.getTime: NaN on Invalid Date. -/
def JsDate.getTime : JsDate → JsNum
  | .invalid => .nan
  | .valid ms => .num (ratOfInt ms)

/-- Skip leading whitespace (the ASCII whitespace characters; the remaining
Unicode space characters JS also skips do not occur in this repository's
inputs). -/
def skipWs : List Char → List Char
  | c :: rest =>
    if c = ' ' ∨ c = '\t' ∨ c = '\n' ∨ c = '\r' then skipWs rest else c :: rest
  | [] => []

/-- Read a maximal run of decimal digits: accumulated value, digit count,
and the rest of the input. -/
def readDigits (acc cnt : Nat) : List Char → Nat × Nat × List Char
  | c :: rest =>
    if c.isDigit then readDigits (acc * 10 + (c.toNat - 48)) (cnt + 1) rest
    else (acc, cnt, c :: rest)
  | [] => (acc, cnt, [])

/-- Exponent part of a JS float literal: `e` or `E`, an optional sign, then
digits.  Returns 0 when no well-formed exponent follows (parseFloat then
stops before the `e`, which yields the same numeric value). -/
def readExponent : List Char → Int
  | c :: rest =>
    if c = 'e' ∨ c = 'E' then
      match rest with
      | '+' :: r => (let t := readDigits 0 0 r; if t.2.1 = 0 then 0 else (t.1 : Int))
      | '-' :: r => (let t := readDigits 0 0 r; if t.2.1 = 0 then 0 else -(t.1 : Int))
      | r => (let t := readDigits 0 0 r; if t.2.1 = 0 then 0 else (t.1 : Int))
    else 0
  | [] => 0

/-- Scale a mantissa by a power of ten. -/
def applyExp (m : Rat) (e : Int) : Rat :=
  if 0 ≤ e then ratMul m (ratTenPow e.toNat) else ratDiv m (ratTenPow (-e).toNat)

/-- Longest-prefix parse of an unsigned JS decimal literal
(digits, an optional fraction, an optional exponent, or fraction-only);
none when no digit is found at all.  The mantissa of d.f with f of k digits
is the fraction (d * 10 ^ k + f) / 10 ^ k. -/
def parseDecimalLiteral (l : List Char) : Option Rat :=
  let ti := readDigits 0 0 l
  match ti.2.2 with
  | '.' :: r2 =>
    let tf := readDigits 0 0 r2
    if ti.2.1 = 0 ∧ tf.2.1 = 0 then none
    else some (applyExp (mkRat ((ti.1 * 10 ^ tf.2.1 + tf.1 : Nat) : Int) ((10 : Nat) ^ tf.2.1))
      (readExponent tf.2.2))
  | r1 => if ti.2.1 = 0 then none else some (applyExp (ratOfInt (ti.1 : Int)) (readExponent r1))

/-- ECMAScript parseFloat: skip whitespace, take an optional sign, then the
longest prefix that is the Infinity literal or a decimal literal; NaN when
there is none.  parseFloat never throws. -/
def parseFloatJs (s : String) : JsNum :=
  let l := skipWs s.toList
  let sgn : Bool × List Char :=
    match l with
    | '+' :: r => (false, r)
    | '-' :: r => (true, r)
    | r => (false, r)
  if "Infinity".toList.isPrefixOf sgn.2 then (if sgn.1 then .negInf else .posInf)
  else
    match parseDecimalLiteral sgn.2 with
    | none => .nan
    | some q => .num (if sgn.1 then ratNeg q else q)

/-- Hexadecimal digit value. -/
def hexVal (c : Char) : Option Nat :=
  if c.isDigit then some (c.toNat - 48)
  else if 'a' ≤ c ∧ c ≤ 'f' then some (c.toNat - 87)
  else if 'A' ≤ c ∧ c ≤ 'F' then some (c.toNat - 55)
  else none

/-- Read a maximal run of hexadecimal digits: value and digit count. -/
def readHexDigits (acc cnt : Nat) : List Char → Nat × Nat
  | c :: rest =>
    match hexVal c with
    | some v => readHexDigits (acc * 16 + v) (cnt + 1) rest
    | none => (acc, cnt)
  | [] => (acc, cnt)

/-- ECMAScript parseInt with no radix argument: whitespace, an optional sign,
then either a 0x or 0X hexadecimal literal or decimal digits; NaN when no
digit is found.  parseInt never throws. -/
def parseIntJs (s : String) : JsNum :=
  let l := skipWs s.toList
  let sgn : Bool × List Char :=
    match l with
    | '+' :: r => (false, r)
    | '-' :: r => (true, r)
    | r => (false, r)
  let vn : Nat × Nat :=
    match sgn.2 with
    | '0' :: x :: r =>
      if x = 'x' ∨ x = 'X' then readHexDigits 0 0 r
      else (let t := readDigits 0 0 ('0' :: x :: r); (t.1, t.2.1))
    | l2 => (let t := readDigits 0 0 l2; (t.1, t.2.1))
  if vn.2 = 0 then .nan
  else .num (if sgn.1 then ratNeg (ratOfInt (vn.1 : Int)) else ratOfInt (vn.1 : Int))

/-- JS subtraction on numbers. -/
def JsNum.sub : JsNum → JsNum → JsNum
  | .nan, _ => .nan
  | _, .nan => .nan
  | .posInf, .posInf => .nan
  | .negInf, .negInf => .nan
  | .posInf, _ => .posInf
  | .negInf, _ => .negInf
  | .num _, .posInf => .negInf
  | .num _, .negInf => .posInf
  | .num a, .num b => .num (ratSub a b)

/-- JS Math.abs. -/
def JsNum.abs : JsNum → JsNum
  | .nan => .nan
  | .posInf => .posInf
  | .negInf => .posInf
  | .num a => .num (ratAbs a)

/-- JS division; the embedded code only ever divides by the positive finite
constant 86400000. -/
def JsNum.div : JsNum → JsNum → JsNum
  | .nan, _ => .nan
  | _, .nan => .nan
  | .posInf, .posInf => .nan
  | .posInf, .negInf => .nan
  | .negInf, .posInf => .nan
  | .negInf, .negInf => .nan
  | .posInf, .num b => if 0 ≤ b.num then .posInf else .negInf
  | .negInf, .num b => if 0 ≤ b.num then .negInf else .posInf
  | .num _, .posInf => .num 0
  | .num _, .negInf => .num 0
  | .num a, .num b =>
    if b.num = 0 then (if a.num = 0 then .nan else if 0 < a.num then .posInf else .negInf)
    else .num (ratDiv a b)

/-- Floor of a rational as an integer. -/
def ratFloor (q : Rat) : Int := Int.fdiv q.num (q.den : Int)

/-- Ceiling of a rational as an integer. -/
def ratCeil (q : Rat) : Int := -(Int.fdiv (-q.num) (q.den : Int))

/-- JS Math.ceil. -/
def JsNum.ceil : JsNum → JsNum
  | .nan => .nan
  | .posInf => .posInf
  | .negInf => .negInf
  | .num q => .num (ratOfInt (ratCeil q))

/-- Read exactly n decimal digits, returning their value and the rest. -/
def readNDigits : Nat → Nat → List Char → Option (Nat × List Char)
  | 0, acc, l => some (acc, l)
  | n + 1, acc, c :: rest =>
    if c.isDigit then readNDigits n (acc * 10 + (c.toNat - 48)) rest else none
  | _ + 1, _, [] => none

/-- Proleptic-Gregorian day count from 1970-01-01 (the classic
days-from-civil computation; Lean's Int division truncates toward zero like
the original). -/
def daysFromCivil (y : Int) (m d : Nat) : Int :=
  let yAdj : Int := if m ≤ 2 then y - 1 else y
  let era : Int := (if 0 ≤ yAdj then yAdj else yAdj - 399) / 400
  let yoe : Int := yAdj - era * 400
  let mp : Int := if 2 < m then (m : Int) - 3 else (m : Int) + 9
  let doy : Int := (153 * mp + 2) / 5 + (d : Int) - 1
  let doe : Int := yoe * 365 + yoe / 4 - yoe / 100 + doy
  era * 146097 + doe - 719468

/-- Gregorian leap-year test. -/
def isLeapYear (y : Int) : Bool := (y % 4 == 0 && y % 100 != 0) || y % 400 == 0

/-- Days in a Gregorian month. -/
def daysInMonth (y : Int) (m : Nat) : Nat :=
  if m = 2 then (if isLeapYear y then 29 else 28)
  else if m = 4 ∨ m = 6 ∨ m = 9 ∨ m = 11 then 30
  else 31

/-- Parse the time part HH:mm, HH:mm:ss or HH:mm:ss.sss with an optional
trailing Z, consuming the whole rest of the input. -/
def parseTimePart (l : List Char) : Option (Nat × Nat × Nat × Nat) :=
  match readNDigits 2 0 l with
  | none => none
  | some (hh, r1) =>
    match r1 with
    | ':' :: r2 =>
      match readNDigits 2 0 r2 with
      | none => none
      | some (mm, r3) =>
        match r3 with
        | [] => some (hh, mm, 0, 0)
        | ['Z'] => some (hh, mm, 0, 0)
        | ':' :: r4 =>
          match readNDigits 2 0 r4 with
          | none => none
          | some (ss, r5) =>
            match r5 with
            | [] => some (hh, mm, ss, 0)
            | ['Z'] => some (hh, mm, ss, 0)
            | '.' :: r6 =>
              match readNDigits 3 0 r6 with
              | none => none
              | some (ms, r7) =>
                match r7 with
                | [] => some (hh, mm, ss, ms)
                | ['Z'] => some (hh, mm, ss, ms)
                | _ => none
            | _ => none
        | _ => none
    | _ => none

/-- Parse the date part YYYY, YYYY-MM or YYYY-MM-DD, returning year, month,
day and the rest of the input. -/
def parseDatePart (l : List Char) : Option (Nat × Nat × Nat × List Char) :=
  match readNDigits 4 0 l with
  | none => none
  | some (y, r1) =>
    match r1 with
    | '-' :: r2 =>
      match readNDigits 2 0 r2 with
      | none => none
      | some (mo, r3) =>
        match r3 with
        | '-' :: r4 =>
          match readNDigits 2 0 r4 with
          | none => none
          | some (dy, r5) => some (y, mo, dy, r5)
        | _ => some (y, mo, 1, r3)
    | _ => some (y, 1, 1, r1)

/-- Model of `new Date(string)`: the ISO-8601 subset
YYYY[-MM[-DD]][THH:mm[:ss[.sss]][Z]], interpreted in UTC; anything else is
modelled as Invalid Date.  (JS additionally accepts timezone offsets,
expanded years and legacy formats; the repository's date strings are plain
UTC ISO timestamps.)  The Date constructor never throws: a bad string yields
Invalid Date, which is why the try/catch around it in the transform is dead
code. -/
def parseDateStr (s : String) : JsDate :=
  match parseDatePart s.toList with
  | none => .invalid
  | some (y, mo, dy, rest) =>
    let time : Option (Nat × Nat × Nat × Nat) :=
      match rest with
      | [] => some (0, 0, 0, 0)
      | 'T' :: tr => parseTimePart tr
      | _ => none
    match time with
    | none => .invalid
    | some (hh, mm, ss, ms) =>
      if 1 ≤ mo ∧ mo ≤ 12 ∧ 1 ≤ dy ∧ dy ≤ daysInMonth (y : Int) mo ∧
         (hh ≤ 23 ∨ (hh = 24 ∧ mm = 0 ∧ ss = 0 ∧ ms = 0)) ∧ mm ≤ 59 ∧ ss ≤ 59 then
        .valid (daysFromCivil (y : Int) mo dy * 86400000 +
          (hh : Int) * 3600000 + (mm : Int) * 60000 + (ss : Int) * 1000 + (ms : Int))
      else .invalid

/-- JS property read props[k]: an absent key yields undefined (outer none), a
null value yields some none, a present string yields some (some s).  JS
objects have unique keys, so first-match lookup is exact. -/
def propsGet (props : List (String × Option String)) (k : String) :
    Option (Option String) :=
  props.lookup k

/-- JS `props[k] || undefined`: an absent key, a null value and the empty
string are all falsy and collapse to undefined. -/
def jsPropOrUndef (v : Option (Option String)) : Option String :=
  match v with
  | some (some s) => if s = "" then none else some s
  | _ => none

/-- JS `props[k] || default` on strings. -/
def jsPropOr (v : Option (Option String)) (d : String) : String :=
  (jsPropOrUndef v).getD d

/-- JS String.prototype.toLowerCase restricted to ASCII, which is all the
stage identifiers of this repository use (written over the character list so
it evaluates in the kernel). -/
def asciiLower (s : String) : String :=
  String.mk (s.toList.map fun c =>
    if 65 ≤ c.toNat ∧ c.toNat ≤ 90 then Char.ofNat (c.toNat + 32) else c)

/-- Does the needle occur as a contiguous run inside the haystack? -/
def listContainsRun (needle : List Char) : List Char → Bool
  | [] => needle.isEmpty
  | c :: rest => needle.isPrefixOf (c :: rest) || listContainsRun needle rest

/-- JS hay.includes needle on strings. -/
def jsIncludes (hay needle : String) : Bool := listContainsRun needle.toList hay.toList

/-- HubSpotDealAssociations of hubspotModels.ts; the lists are nullable so
that the null-guards `|| []` in the transform are representable. -/
structure HubSpotDealAssociations where
  contacts : Option (List String)
  companies : Option (List String)
deriving DecidableEq, Repr

/-- HubSpotDealRaw of hubspotModels.ts.  The id is modelled as Option String
so that the structurally-invalid missing-id raw record discussed by the spec
is representable; the transform reads it without ever inspecting it. -/
structure HubSpotDealRaw where
  id : Option String
  properties : List (String × Option String)
  createdAt : String
  updatedAt : String
  archived : Bool
  associations : HubSpotDealAssociations
deriving DecidableEq, Repr

/-- HubSpotDeal of hubspotModels.ts (the normalized record). -/
structure HubSpotDeal where
  id : Option String
  dealName : String
  amount : JsNum
  currency : String
  stage : String
  stageLabel : String
  pipeline : String
  pipelineLabel : String
  dealType : Option String
  closeDate : Option JsDate
  createdAt : JsDate
  lastModifiedAt : JsDate
  ownerId : Option String
  stageProbability : JsNum
  forecastAmount : JsNum
  projectedAmount : JsNum
  daysToClose : Option JsNum
  isWon : Bool
  isClosed : Bool
  isArchived : Bool
  contactCount : JsNum
  noteCount : JsNum
  associatedContacts : List String
  associatedCompanies : List String
  customProperties : List (String × String)
deriving DecidableEq, Repr

namespace HubSpotTransforms

/-- Source: `props.dealname || "Untitled Deal"`. -/
def dealName (props : List (String × Option String)) : String :=
  jsPropOr (propsGet props "dealname") "Untitled Deal"

/-- Source: `parseFloat(props.amount || "0") || 0`. -/
def amount (props : List (String × Option String)) : JsNum :=
  jsNumOrZero (parseFloatJs (jsPropOr (propsGet props "amount") "0"))

/-- Source: `props.deal_currency_code || "USD"`. -/
def currency (props : List (String × Option String)) : String :=
  jsPropOr (propsGet props "deal_currency_code") "USD"

/-- Source: `props.dealstage || "unknown"`. -/
def stage (props : List (String × Option String)) : String :=
  jsPropOr (propsGet props "dealstage") "unknown"

/-- Source: `props.dealstage_label || stage`. -/
def stageLabel (props : List (String × Option String)) : String :=
  jsPropOr (propsGet props "dealstage_label") (stage props)

/-- Source: `props.pipeline || "default"`. -/
def pipeline (props : List (String × Option String)) : String :=
  jsPropOr (propsGet props "pipeline") "default"

/-- Source: `props.pipeline_label || pipeline`. -/
def pipelineLabel (props : List (String × Option String)) : String :=
  jsPropOr (propsGet props "pipeline_label") (pipeline props)

/-- The transform's local parseDate helper.  An absent or empty input takes
the `if (!dateStr) return new Date()` branch and yields the current clock
instant; otherwise `new Date(dateStr)` is returned, which never throws (a bad
string yields Invalid Date), so the catch branch returning new Date() is dead
code. -/
def parseDate (now : Int) (dateStr : Option String) : JsDate :=
  match dateStr with
  | none => .valid now
  | some s => if s = "" then .valid now else parseDateStr s

/-- Source: `parseDate(props.createdate || undefined) || new Date(rawDeal.createdAt)`;
the right operand of `||` is dead code because parseDate always returns a
(truthy) Date object. -/
def createdAt (props : List (String × Option String)) (now : Int)
    (rawCreatedAt : String) : JsDate :=
  jsDateOr (parseDate now (jsPropOrUndef (propsGet props "createdate")))
    (parseDateStr rawCreatedAt)

/-- Source: `parseDate(props.hs_lastmodifieddate || undefined) || new Date(rawDeal.updatedAt)`;
the right operand of `||` is dead code, as for createdAt. -/
def lastModifiedAt (props : List (String × Option String)) (now : Int)
    (rawUpdatedAt : String) : JsDate :=
  jsDateOr (parseDate now (jsPropOrUndef (propsGet props "hs_lastmodifieddate")))
    (parseDateStr rawUpdatedAt)

/-- Source: `props.closedate ? parseDate(props.closedate || undefined) : undefined`. -/
def closeDate (props : List (String × Option String)) (now : Int) : Option JsDate :=
  match jsPropOrUndef (propsGet props "closedate") with
  | some s => some (parseDate now (some s))
  | none => none

/-- Source: `props.hubspot_owner_id` followed by `ownerId || undefined` in the
result object. -/
def ownerId (props : List (String × Option String)) : Option String :=
  jsPropOrUndef (propsGet props "hubspot_owner_id")

/-- Source: `parseFloat(props.hs_deal_stage_probability || "0") || 0`. -/
def stageProbability (props : List (String × Option String)) : JsNum :=
  jsNumOrZero (parseFloatJs (jsPropOr (propsGet props "hs_deal_stage_probability") "0"))

/-- Source: `parseFloat(props.hs_forecast_amount || props.amount || "0") || 0`. -/
def forecastAmount (props : List (String × Option String)) : JsNum :=
  jsNumOrZero (parseFloatJs (jsPropOr (propsGet props "hs_forecast_amount")
    (jsPropOr (propsGet props "amount") "0")))

/-- Source: `parseFloat(props.hs_projected_amount || props.amount || "0") || 0`. -/
def projectedAmount (props : List (String × Option String)) : JsNum :=
  jsNumOrZero (parseFloatJs (jsPropOr (propsGet props "hs_projected_amount")
    (jsPropOr (propsGet props "amount") "0")))

/-- Source: `stage.toLowerCase().includes("won") || stage.toLowerCase().includes("closed")`. -/
def isWon (props : List (String × Option String)) : Bool :=
  jsIncludes (asciiLower (stage props)) "won" || jsIncludes (asciiLower (stage props)) "closed"

/-- Source: `isWon || stage.toLowerCase().includes("lost") || stage.toLowerCase().includes("closed")`. -/
def isClosed (props : List (String × Option String)) : Bool :=
  isWon props || jsIncludes (asciiLower (stage props)) "lost" ||
    jsIncludes (asciiLower (stage props)) "closed"

/-- Source: computed only `if (isClosed && closeDate)`:
`Math.ceil(Math.abs(closeDate.getTime() - createdAt.getTime()) / 86400000)`. -/
def daysToClose (props : List (String × Option String)) (now : Int)
    (rawCreatedAt : String) : Option JsNum :=
  match closeDate props now with
  | some cd =>
    if isClosed props then
      some (JsNum.ceil (JsNum.div
        (JsNum.abs (JsNum.sub cd.getTime (createdAt props now rawCreatedAt).getTime))
        (.num 86400000)))
    else none
  | none => none

/-- The standardProperties set of the transform. -/
def standardProperties : List String :=
  ["dealname", "amount", "dealstage", "pipeline", "dealtype", "closedate",
   "createdate", "hs_lastmodifieddate", "hubspot_owner_id", "amount_in_home_currency",
   "hs_deal_stage_probability", "dealstage_label", "pipeline_label", "deal_currency_code",
   "hs_forecast_amount", "hs_projected_amount", "num_associated_contacts",
   "num_contacted_notes", "days_to_close"]

/-- Source: every entry whose key is not standard and whose value is neither
undefined nor null is kept verbatim (an empty string is kept here, unlike in
the sync driver's cleaning step). -/
def customProperties (props : List (String × Option String)) : List (String × String) :=
  props.filterMap fun kv =>
    if standardProperties.contains kv.1 then none
    else
      match kv.2 with
      | some v => some (kv.1, v)
      | none => none

/-- Source: `parseInt(props.num_associated_contacts || "0") || associatedContacts.length`. -/
def contactCount (props : List (String × Option String))
    (assocContacts : List String) : JsNum :=
  let p := parseIntJs (jsPropOr (propsGet props "num_associated_contacts") "0")
  if p.truthy then p else .num assocContacts.length

/-- Source: `parseInt(props.num_contacted_notes || "0") || 0`. -/
def noteCount (props : List (String × Option String)) : JsNum :=
  jsNumOrZero (parseIntJs (jsPropOr (propsGet props "num_contacted_notes") "0"))

/-- The stream transform of hubspotTransforms.ts.  It is a total function of
the raw deal and the wall clock (now, in epoch milliseconds): every JS
operation in its body is total — property reads on the present properties
object yield undefined rather than throwing, parseFloat and parseInt yield
NaN on bad input, new Date yields Invalid Date — so the transform never
throws for missing optional data and nothing is ever routed to the dead
letter queue by this body.  In particular it performs no id validation:
rawDeal.id is copied through unchanged. -/
def normalizeDeal (rawDeal : HubSpotDealRaw) (now : Int) : HubSpotDeal :=
  let props := rawDeal.properties
  let associatedContacts := rawDeal.associations.contacts.getD []
  let associatedCompanies := rawDeal.associations.companies.getD []
  { id := rawDeal.id
    dealName := dealName props
    amount := amount props
    currency := currency props
    stage := stage props
    stageLabel := stageLabel props
    pipeline := pipeline props
    pipelineLabel := pipelineLabel props
    dealType := jsPropOrUndef (propsGet props "dealtype")
    closeDate := closeDate props now
    createdAt := createdAt props now rawDeal.createdAt
    lastModifiedAt := lastModifiedAt props now rawDeal.updatedAt
    ownerId := ownerId props
    stageProbability := stageProbability props
    forecastAmount := forecastAmount props
    projectedAmount := projectedAmount props
    daysToClose := daysToClose props now rawDeal.createdAt
    isWon := isWon props
    isClosed := isClosed props
    isArchived := rawDeal.archived
    contactCount := contactCount props associatedContacts
    noteCount := noteCount props
    associatedContacts := associatedContacts
    associatedCompanies := associatedCompanies
    customProperties := customProperties props }

end HubSpotTransforms

namespace HubSpotSyncScript

/-- Body of the property-cleaning loop of syncHubSpotDeals: an entry is kept
exactly when its value is neither null, nor undefined, nor the empty string
(`value !== null && value !== undefined && value !== ""`); the String(value)
conversion is the identity on the already-string values. -/
def cleanEntry (kv : String × Option String) : Option (String × String) :=
  match kv.2 with
  | some v => if v = "" then none else some (kv.1, v)
  | none => none

/-- Property-cleaning step of syncHubSpotDeals: the cleanProperties object
forwarded in dealData.properties. -/
def cleanProperties (props : List (String × Option String)) : List (String × String) :=
  props.filterMap cleanEntry

/-- Per-record counters of syncHubSpotDeals. -/
structure SyncStats where
  dealCount : Nat
  successCount : Nat
  errorCount : Nat
deriving DecidableEq, Repr

/-- One iteration of the streaming loop: dealCount is always incremented;
then either successCount is incremented (the fetch to the ingestion boundary
returned ok) or, in the catch branch, errorCount is incremented and the loop
continues with the next record. -/
def ingestStep (s : SyncStats) (forwardOk : Bool) : SyncStats :=
  if forwardOk then
    { s with dealCount := s.dealCount + 1, successCount := s.successCount + 1 }
  else
    { s with dealCount := s.dealCount + 1, errorCount := s.errorCount + 1 }

/-- The whole streaming loop of syncHubSpotDeals, abstracted over the
per-record forwarding outcomes (response.ok for each streamed deal); the
catch-and-continue structure means every streamed record is processed. -/
def syncHubSpotDeals (outcomes : List Bool) : SyncStats :=
  outcomes.foldl ingestStep ⟨0, 0, 0⟩

/-- The final summary line reports exactly the three counters:
total deals processed, deals added, errors. -/
def finalStats (s : SyncStats) : Nat × Nat × Nat :=
  (s.dealCount, s.successCount, s.errorCount)

end HubSpotSyncScript

/-- A structurally invalid raw deal: the id is missing and every optional
property is absent. -/
def noIdRawDeal : HubSpotDealRaw :=
  { id := none, properties := [], createdAt := "2024-01-01T00:00:00Z",
    updatedAt := "2024-01-02T00:00:00Z", archived := false,
    associations := { contacts := some [], companies := some [] } }

/-- A well-formed raw deal without createdate and hs_lastmodifieddate
properties; its own createdAt and updatedAt timestamps are valid ISO
instants. -/
def noDatesRawDeal : HubSpotDealRaw :=
  { id := some "1001", properties := [("dealname", some "Acme renewal")],
    createdAt := "2024-01-01T00:00:00Z", updatedAt := "2024-01-02T00:00:00Z",
    archived := false, associations := { contacts := some [], companies := some [] } }

/-- A raw deal in the standard HubSpot lost stage "closedlost". -/
def closedLostRawDeal : HubSpotDealRaw :=
  { id := some "1002", properties := [("dealstage", some "closedlost")],
    createdAt := "2024-01-01T00:00:00Z", updatedAt := "2024-01-02T00:00:00Z",
    archived := false, associations := { contacts := some [], companies := some [] } }

/-- A raw deal in the standard HubSpot won stage "closedwon". -/
def closedWonRawDeal : HubSpotDealRaw :=
  { id := some "1003", properties := [("dealstage", some "closedwon")],
    createdAt := "2024-01-01T00:00:00Z", updatedAt := "2024-01-02T00:00:00Z",
    archived := false, associations := { contacts := some [], companies := some [] } }

/-- A raw deal whose amount property is null. -/
def nullAmountRawDeal : HubSpotDealRaw :=
  { id := some "1004", properties := [("amount", none)],
    createdAt := "2024-01-01T00:00:00Z", updatedAt := "2024-01-02T00:00:00Z",
    archived := false, associations := { contacts := some [], companies := some [] } }

/-- A raw deal whose amount property is present but not a number. -/
def badAmountRawDeal : HubSpotDealRaw :=
  { id := some "1005", properties := [("amount", some "abc")],
    createdAt := "2024-01-01T00:00:00Z", updatedAt := "2024-01-02T00:00:00Z",
    archived := false, associations := { contacts := some [], companies := some [] } }

/-- A raw deal with amount 500, no hs_forecast_amount, and an unparseable
hs_projected_amount. -/
def amountOnlyRawDeal : HubSpotDealRaw :=
  { id := some "1006",
    properties := [("amount", some "500"), ("hs_projected_amount", some "abc")],
    createdAt := "2024-01-01T00:00:00Z", updatedAt := "2024-01-02T00:00:00Z",
    archived := false, associations := { contacts := some [], companies := some [] } }

/-- C1 counterexample: the transform performs no id check.  On a raw record
whose id is missing it still returns a NormalizedRecord — shown here in
full — rather than a NormalizationError, and nothing reaches the dead letter
queue. -/
theorem c1_missing_id_no_error :
    noIdRawDeal.id = none ∧
    HubSpotTransforms.normalizeDeal noIdRawDeal 0 =
      { id := none, dealName := "Untitled Deal", amount := .num 0, currency := "USD",
        stage := "unknown", stageLabel := "unknown", pipeline := "default",
        pipelineLabel := "default", dealType := none, closeDate := none,
        createdAt := .valid 0, lastModifiedAt := .valid 0, ownerId := none,
        stageProbability := .num 0, forecastAmount := .num 0, projectedAmount := .num 0,
        daysToClose := none, isWon := false, isClosed := false, isArchived := false,
        contactCount := .num 0, noteCount := .num 0, associatedContacts := [],
        associatedCompanies := [], customProperties := [] } :=
  ⟨rfl, by decide⟩

/-- C1 (amended): the transform never fails and performs no id validation.
For every raw record — one missing its id included — and every clock instant
it produces a NormalizedRecord whose id is the raw id copied through
unchanged; being a total function of its input, missing optional properties
cannot make it raise. -/
theorem c1_normalizeDeal_total_id_passthrough (rawDeal : HubSpotDealRaw) (now : Int) :
    (HubSpotTransforms.normalizeDeal rawDeal now).id = rawDeal.id := rfl

/-- C2 (code bug): with createdate and hs_lastmodifieddate absent, the
normalized createdAt and lastModifiedAt are the current clock instant (here
12345), not the raw record's own createdAt and updatedAt timestamps, because
parseDate returns `new Date()` on absent input and always returns a truthy
Date object, so the written `|| new Date(rawDeal.createdAt)` fallback is dead
code. -/
theorem c2_date_fallback_uses_clock :
    propsGet noDatesRawDeal.properties "createdate" = none ∧
    (HubSpotTransforms.normalizeDeal noDatesRawDeal 12345).createdAt = .valid 12345 ∧
    parseDateStr noDatesRawDeal.createdAt = .valid 1704067200000 ∧
    (HubSpotTransforms.normalizeDeal noDatesRawDeal 12345).createdAt ≠
      parseDateStr noDatesRawDeal.createdAt ∧
    (HubSpotTransforms.normalizeDeal noDatesRawDeal 12345).lastModifiedAt = .valid 12345 ∧
    (HubSpotTransforms.normalizeDeal noDatesRawDeal 12345).lastModifiedAt ≠
      parseDateStr noDatesRawDeal.updatedAt := by
  refine ⟨rfl, by decide, by decide, by decide, by decide, by decide⟩

/-- C3 (code bug): the transform is not clock independent.  The same raw
record, normalized at clock instants 1000 and 2000, yields different
NormalizedRecords, because absent date properties fall back to `new Date()`
rather than to the record's own timestamps. -/
theorem c3_not_clock_independent :
    HubSpotTransforms.normalizeDeal noDatesRawDeal 1000 ≠
      HubSpotTransforms.normalizeDeal noDatesRawDeal 2000 := by decide

/-- C4 (code bug): a stage with no "won" token still sets isWon.  The source
computes isWon as includes("won") || includes("closed"), so the standard lost
stage "closedlost" — which contains "closed" but not "won" — is marked
isWon = true, contradicting the claim that only a "won" token makes isWon
true (and the model's own "Whether deal is won" documentation). -/
theorem c4_isWon_closed_token_bug :
    jsIncludes "closedlost" "won" = false ∧
    (HubSpotTransforms.normalizeDeal closedLostRawDeal 0).isWon = true ∧
    (HubSpotTransforms.normalizeDeal closedLostRawDeal 0).isClosed = true := by
  refine ⟨by decide, by decide, by decide⟩

/-- C5: for every raw record whose dealstage property is present and
case-insensitively contains "won", the normalized record has isWon = true and
isClosed = true. -/
theorem c5_stage_won_implies_isWon_isClosed
    (rawDeal : HubSpotDealRaw) (now : Int) (d : String)
    (hd : propsGet rawDeal.properties "dealstage" = some (some d))
    (hwon : jsIncludes (asciiLower d) "won" = true) :
    (HubSpotTransforms.normalizeDeal rawDeal now).isWon = true ∧
    (HubSpotTransforms.normalizeDeal rawDeal now).isClosed = true := by
  have hne : d ≠ "" := by
    intro h
    rw [h] at hwon
    exact absurd hwon (by decide)
  have hstage : HubSpotTransforms.stage rawDeal.properties = d := by
    simp [HubSpotTransforms.stage, jsPropOr, jsPropOrUndef, hd, hne]
  have hw : HubSpotTransforms.isWon rawDeal.properties = true := by
    simp [HubSpotTransforms.isWon, hstage, hwon]
  constructor
  · exact hw
  · show HubSpotTransforms.isClosed rawDeal.properties = true
    simp [HubSpotTransforms.isClosed, hw]

/-- C5 witness at the concrete stage "closedwon". -/
theorem c5_witness :
    (HubSpotTransforms.normalizeDeal closedWonRawDeal 0).isWon = true ∧
    (HubSpotTransforms.normalizeDeal closedWonRawDeal 0).isClosed = true :=
  c5_stage_won_implies_isWon_isClosed closedWonRawDeal 0 "closedwon" rfl (by decide)

/-- C6: the normalized amount is 0 both when the amount property is absent,
null or empty (all falsy, so the string "0" is parsed) and when it is present
but parseFloat fails on it (NaN || 0 yields 0); a parse error is never
propagated, parseFloat being total. -/
theorem c6_amount_defaults_to_zero (rawDeal : HubSpotDealRaw) (now : Int) :
    (jsPropOrUndef (propsGet rawDeal.properties "amount") = none →
      (HubSpotTransforms.normalizeDeal rawDeal now).amount = .num 0) ∧
    (∀ s, jsPropOrUndef (propsGet rawDeal.properties "amount") = some s →
      parseFloatJs s = .nan →
      (HubSpotTransforms.normalizeDeal rawDeal now).amount = .num 0) := by
  constructor
  · intro h
    show HubSpotTransforms.amount rawDeal.properties = .num 0
    simp only [HubSpotTransforms.amount, jsPropOr, h, Option.getD_none]
    decide
  · intro s h hnan
    show HubSpotTransforms.amount rawDeal.properties = .num 0
    simp only [HubSpotTransforms.amount, jsPropOr, h, Option.getD_some, hnan]
    decide

/-- C6 witness: a null amount and an unparseable amount "abc" both normalize
to amount 0. -/
theorem c6_witness :
    (HubSpotTransforms.normalizeDeal nullAmountRawDeal 0).amount = .num 0 ∧
    (HubSpotTransforms.normalizeDeal badAmountRawDeal 0).amount = .num 0 :=
  ⟨(c6_amount_defaults_to_zero nullAmountRawDeal 0).1 (by decide),
   (c6_amount_defaults_to_zero badAmountRawDeal 0).2 "abc" (by decide) (by decide)⟩

/-- C7 counterexample: with hs_forecast_amount absent and amount "500", the
normalized forecastAmount is 500, not the claimed default 0 — the source
falls back through `props.hs_forecast_amount || props.amount || "0"`. -/
theorem c7_forecast_not_zero_counterexample :
    propsGet amountOnlyRawDeal.properties "hs_forecast_amount" = none ∧
    (HubSpotTransforms.normalizeDeal amountOnlyRawDeal 0).forecastAmount = .num 500 := by
  refine ⟨by decide, by decide⟩

/-- C7 (amended): forecastAmount and projectedAmount fall back to the amount
property when their own property is absent, null or empty — the field then
equals the record's normalized amount, not 0; only a present, non-empty value
on which parseFloat fails yields 0 regardless of the other properties. -/
theorem c7_forecast_projected_fallback (rawDeal : HubSpotDealRaw) (now : Int) :
    (jsPropOrUndef (propsGet rawDeal.properties "hs_forecast_amount") = none →
      (HubSpotTransforms.normalizeDeal rawDeal now).forecastAmount =
        (HubSpotTransforms.normalizeDeal rawDeal now).amount) ∧
    (∀ s, jsPropOrUndef (propsGet rawDeal.properties "hs_forecast_amount") = some s →
      parseFloatJs s = .nan →
      (HubSpotTransforms.normalizeDeal rawDeal now).forecastAmount = .num 0) ∧
    (jsPropOrUndef (propsGet rawDeal.properties "hs_projected_amount") = none →
      (HubSpotTransforms.normalizeDeal rawDeal now).projectedAmount =
        (HubSpotTransforms.normalizeDeal rawDeal now).amount) ∧
    (∀ s, jsPropOrUndef (propsGet rawDeal.properties "hs_projected_amount") = some s →
      parseFloatJs s = .nan →
      (HubSpotTransforms.normalizeDeal rawDeal now).projectedAmount = .num 0) := by
  refine ⟨?_, ?_, ?_, ?_⟩
  · intro h
    show HubSpotTransforms.forecastAmount rawDeal.properties =
      HubSpotTransforms.amount rawDeal.properties
    simp only [HubSpotTransforms.forecastAmount, HubSpotTransforms.amount,
      jsPropOr, h, Option.getD_none, Option.getD_some]
  · intro s h hnan
    show HubSpotTransforms.forecastAmount rawDeal.properties = .num 0
    simp only [HubSpotTransforms.forecastAmount, jsPropOr, h, Option.getD_some, hnan]
    decide
  · intro h
    show HubSpotTransforms.projectedAmount rawDeal.properties =
      HubSpotTransforms.amount rawDeal.properties
    simp only [HubSpotTransforms.projectedAmount, HubSpotTransforms.amount,
      jsPropOr, h, Option.getD_none, Option.getD_some]
  · intro s h hnan
    show HubSpotTransforms.projectedAmount rawDeal.properties = .num 0
    simp only [HubSpotTransforms.projectedAmount, jsPropOr, h, Option.getD_some, hnan]
    decide

/-- C7 witness: on a record with amount "500", a missing hs_forecast_amount
makes forecastAmount equal the normalized amount, and the unparseable
hs_projected_amount "abc" makes projectedAmount 0. -/
theorem c7_witness :
    (HubSpotTransforms.normalizeDeal amountOnlyRawDeal 0).forecastAmount =
      (HubSpotTransforms.normalizeDeal amountOnlyRawDeal 0).amount ∧
    (HubSpotTransforms.normalizeDeal amountOnlyRawDeal 0).projectedAmount = .num 0 :=
  ⟨(c7_forecast_projected_fallback amountOnlyRawDeal 0).1 (by decide),
   (c7_forecast_projected_fallback amountOnlyRawDeal 0).2.2.2 "abc" (by decide) (by decide)⟩

/-- Characterization of the cleaning loop body: an entry survives with value
v exactly when it was bound to the present, non-empty string v. -/
theorem cleanEntry_eq_some_iff (kv : String × Option String) (k v : String) :
    HubSpotSyncScript.cleanEntry kv = some (k, v) ↔ kv = (k, some v) ∧ v ≠ "" := by
  obtain ⟨k2, v2⟩ := kv
  match v2 with
  | none => simp [HubSpotSyncScript.cleanEntry]
  | some s =>
    by_cases hs : s = ""
    · subst hs
      constructor
      · intro h
        exact absurd h (by simp [HubSpotSyncScript.cleanEntry])
      · rintro ⟨h1, h2⟩
        have hv : some ("" : String) = some v := congrArg Prod.snd h1
        exact absurd (Option.some.inj hv).symm h2
    · simp only [HubSpotSyncScript.cleanEntry, if_neg hs, Option.some.injEq,
        Prod.mk.injEq]
      constructor
      · rintro ⟨rfl, rfl⟩
        exact ⟨⟨rfl, rfl⟩, hs⟩
      · rintro ⟨⟨rfl, hv⟩, _⟩
        exact ⟨rfl, hv⟩

/-- C8: the cleaned properties forwarded to the ingestion boundary contain a
binding exactly when the raw deal had that key bound to a present, non-null,
non-empty string; null entries and empty strings are dropped (and absent keys
contribute nothing), so an empty string is never forwarded. -/
theorem c8_cleanProperties_spec (props : List (String × Option String)) (k v : String) :
    (k, v) ∈ HubSpotSyncScript.cleanProperties props ↔ (k, some v) ∈ props ∧ v ≠ "" := by
  unfold HubSpotSyncScript.cleanProperties
  rw [List.mem_filterMap]
  constructor
  · rintro ⟨a, hmem, hf⟩
    rw [cleanEntry_eq_some_iff] at hf
    obtain ⟨rfl, hv⟩ := hf
    exact ⟨hmem, hv⟩
  · rintro ⟨hmem, hv⟩
    exact ⟨(k, some v), hmem, (cleanEntry_eq_some_iff (k, some v) k v).2 ⟨rfl, hv⟩⟩

/-- Unrolling of the sync loop from an arbitrary starting state: every
outcome bumps dealCount, successes bump successCount, failures bump
errorCount. -/
theorem syncStats_foldl (outcomes : List Bool) (s : HubSpotSyncScript.SyncStats) :
    outcomes.foldl HubSpotSyncScript.ingestStep s =
      ⟨s.dealCount + outcomes.length, s.successCount + outcomes.count true,
       s.errorCount + outcomes.count false⟩ := by
  induction outcomes generalizing s with
  | nil => rfl
  | cons b tl ih =>
    cases b
    · rw [List.foldl_cons, ih]
      simp only [HubSpotSyncScript.ingestStep, if_neg (by decide : ¬ (false = true))]
      simp [List.count_cons]
      omega
    · rw [List.foldl_cons, ih]
      simp only [HubSpotSyncScript.ingestStep, if_pos rfl]
      simp [List.count_cons]
      omega

/-- C9: the sync loop processes every streamed deal even when some
forwardings to the ingestion boundary fail — each failure increments the
error count in the catch branch and the loop continues with the next
record — and the final summary reports exactly the total, succeeded and
error counts accumulated over the whole stream. -/
theorem c9_sync_counts (outcomes : List Bool) :
    HubSpotSyncScript.finalStats (HubSpotSyncScript.syncHubSpotDeals outcomes) =
      (outcomes.length, outcomes.count true, outcomes.count false) := by
  unfold HubSpotSyncScript.syncHubSpotDeals
  rw [syncStats_foldl]
  simp [HubSpotSyncScript.finalStats]

/-- C10: every record the transform produces satisfies isWon implies
isClosed, since the source computes isClosed as isWon || further tests. -/
theorem c10_isWon_implies_isClosed (rawDeal : HubSpotDealRaw) (now : Int)
    (h : (HubSpotTransforms.normalizeDeal rawDeal now).isWon = true) :
    (HubSpotTransforms.normalizeDeal rawDeal now).isClosed = true := by
  have hw : HubSpotTransforms.isWon rawDeal.properties = true := h
  show HubSpotTransforms.isClosed rawDeal.properties = true
  simp [HubSpotTransforms.isClosed, hw]

/-- C10 witness at the concrete stage "closedwon". -/
theorem c10_witness :
    (HubSpotTransforms.normalizeDeal closedWonRawDeal 0).isClosed = true :=
  c10_isWon_implies_isClosed closedWonRawDeal 0 (by decide)
